import Mathlib

/-!
Verification of the FileVault secure file-sharing backend.

The development embeds the backend's data model and operations
(`utils/encryption.js`, `utils/keyDerivation.js`, `utils/keyExchange.js`,
`models/User.js`, `models/File.js`, `controllers/authController.js`,
`controllers/fileController.js`) as executable Lean definitions and proves
the specified functional properties about them.

External cryptographic primitives (Node's `crypto` AES-256-GCM cipher,
SHA-256, PBKDF2, bcrypt, RSA-OAEP) are not part of the repository; they are
modelled from the specification as idealized primitives: the AEAD tag is
perfectly binding (it verifies only for the exact key/iv/ciphertext it was
produced from), the hash and the key-derivation function are injective, and
bytes are modelled as natural numbers.  All wrapper logic around the
primitives (length checks, error strings, branch order, state updates) is
translated directly from the source.
-/

namespace FileVault

/-! ## Envelope Encryption Unit — `utils/encryption.js` -/

/-- Modelled from the spec: the AES-256-GCM authentication tag.  The spec
(§4.2, glossary) requires that decryption fail unless the tag verifies for
exactly the key, iv and ciphertext that produced it; the idealized tag is
therefore the triple itself, making tag verification perfectly binding.
The Node `crypto` implementation is outside the repository. -/
structure AuthTag where
  key : List Nat
  iv : List Nat
  ct : List Nat
deriving Repr, DecidableEq

/-- Modelled from the spec: one keystream byte of the GCM counter-mode
stream for a given key, iv and byte position (Node `crypto` internals are
outside the repository).  Only XOR-involutivity of the stream matters for
the embedded properties. -/
def ksByte (key iv : List Nat) (i : Nat) : Nat :=
  (key.sum + iv.sum + i) % 256

/-- Modelled from the spec: the GCM counter-mode stream cipher pass,
XORing each byte with the keystream.  Applying it twice with the same
key/iv restores the input, which models GCM en/decryption symmetry. -/
def gcmStream (key iv : List Nat) : Nat → List Nat → List Nat
  | _, [] => []
  | i, b :: rest => (b ^^^ ksByte key iv i) :: gcmStream key iv (i + 1) rest

/-- Modelled from the spec: computing the AEAD tag over key, iv and
ciphertext. -/
def gcmTag (key iv ct : List Nat) : AuthTag := ⟨key, iv, ct⟩

/-- Result shape of `encryptFile` in `utils/encryption.js`:
`{ encryptedData, iv, authTag }`. -/
structure EncryptedFile where
  encryptedData : List Nat
  iv : List Nat
  authTag : AuthTag
deriving Repr, DecidableEq

/-- Embeds `encryptFile(plainBuffer, key)` from `utils/encryption.js` lines 72-100.
The source generates a fresh random IV inside the call; the randomness is
threaded as the explicit `iv` argument.  The key-length guard and its error
message are the source's. -/
def encryptFile (plainBuffer key iv : List Nat) : Except String EncryptedFile :=
  if key.length ≠ 32 then
    .error "Key must be 32 bytes (256 bits)"
  else
    .ok { encryptedData := gcmStream key iv 0 plainBuffer
          iv := iv
          authTag := gcmTag key iv (gcmStream key iv 0 plainBuffer) }

/-- Embeds `decryptFile(encryptedBuffer, iv, authTag, key)` from
`utils/encryption.js` lines 117-150: key-length guard, tag verification,
and the `AUTH_FAILED` error surfaced when GCM authentication fails. -/
def decryptFile (encryptedBuffer iv : List Nat) (authTag : AuthTag)
    (key : List Nat) : Except String (List Nat) :=
  if key.length ≠ 32 then
    .error "Key must be 32 bytes (256 bits)"
  else if authTag = gcmTag key iv encryptedBuffer then
    .ok (gcmStream key iv 0 encryptedBuffer)
  else
    .error "AUTH_FAILED: Decryption authentication failed"

/-- Embeds `encryptKey(fileKey, masterKey)` — `utils/encryption.js` line 160,
delegates to `encryptFile`. -/
def encryptKey (fileKey masterKey iv : List Nat) : Except String EncryptedFile :=
  encryptFile fileKey masterKey iv

/-- Embeds `decryptKey(encryptedKey, iv, authTag, masterKey)` —
`utils/encryption.js` line 173, delegates to `decryptFile`. -/
def decryptKey (encryptedKey iv : List Nat) (authTag : AuthTag)
    (masterKey : List Nat) : Except String (List Nat) :=
  decryptFile encryptedKey iv authTag masterKey

/-- Embeds `calculateHash(buffer)` from `utils/encryption.js` lines 186-188.
Modelled from the spec: SHA-256 (external to the repository) is a
collision-resistant digest, idealized as an injective encoding of the
content into a natural number standing for the hex digest. -/
def calculateHash (buffer : List Nat) : Nat :=
  Encodable.encode buffer

/-- Embeds `verifyIntegrity(buffer, expectedHash)` from `utils/encryption.js`
lines 197-204: recompute the digest and compare (the source's
constant-time comparison is observationally plain equality). -/
def verifyIntegrity (buffer : List Nat) (expectedHash : Nat) : Bool :=
  calculateHash buffer == expectedHash

/-! ## Key Derivation Unit — `utils/keyDerivation.js` -/

/-- Embeds `deriveKey(password, salt)` from `utils/keyDerivation.js` lines 64-78.
Modelled from the spec: PBKDF2-HMAC-SHA256 (Node `crypto`, external) is a
deterministic derivation, injective in the (password, salt) pair, always
producing a 32-byte key; idealized as an injective pairing packed into a
32-entry list. -/
def deriveKey (password salt : List Nat) : List Nat :=
  Nat.pair (Encodable.encode password) (Encodable.encode salt) :: List.replicate 31 0

/-! ## Data model — `models/User.js` and shared response shape -/

/-- The (status, success, message) triple every controller response
carries (`res.status(...).json({ success, message, ... })`). -/
structure ApiResponse where
  status : Nat
  success : Bool
  message : String
deriving Repr, DecidableEq

/-- Account record, the fields of `userSchema` in `models/User.js` that the
embedded operations read or write. -/
structure UserRecord where
  id : Nat
  username : String
  email : String
  passwordHash : Nat
  role : String
  mfaVerified : Bool
  encryptionSalt : Option (List Nat)
  loginAttempts : Nat
  lockUntil : Option Nat
  lastLogin : Option Nat
deriving Repr, DecidableEq

/-- Modelled from the spec: bcrypt password hashing (`bcryptjs`, external
to the repository) is deterministic per stored hash and collision-free for
verification purposes; idealized as an injective encoding. -/
def bcryptHash (password : List Nat) : Nat :=
  Encodable.encode password

/-- Embeds `userSchema.methods.comparePassword` in `models/User.js` lines 350-352:
compare a candidate password against the stored bcrypt hash. -/
def bcryptCompare (candidatePassword : List Nat) (hash : Nat) : Bool :=
  bcryptHash candidatePassword == hash

/-- Embeds `userSchema.methods.isLocked` in `models/User.js` lines 357-359:
`!!(this.lockUntil && this.lockUntil > Date.now())`. -/
def isLocked (u : UserRecord) (now : Nat) : Bool :=
  match u.lockUntil with
  | some lu => now < lu
  | none => false

/-- Embeds `userSchema.methods.incrementLoginAttempts` in `models/User.js`
lines 364-382: reset to 1 when an expired lock is present, otherwise
increment, locking for 2 hours (7200000 ms) once the counter reaches 5. -/
def incrementLoginAttempts (u : UserRecord) (now : Nat) : UserRecord :=
  match u.lockUntil with
  | some lu =>
      if lu < now then
        { u with loginAttempts := 1, lockUntil := none }
      else
        let u' := { u with loginAttempts := u.loginAttempts + 1 }
        if u.loginAttempts + 1 ≥ 5 then
          { u' with lockUntil := some (now + 7200000) }
        else u'
  | none =>
      let u' := { u with loginAttempts := u.loginAttempts + 1 }
      if u.loginAttempts + 1 ≥ 5 then
        { u' with lockUntil := some (now + 7200000) }
      else u'

/-- Replace the persisted copy of a user after a mutation (`user.save()` /
`user.updateOne(...)`): every stored record with the same id takes the new
value. -/
def updateUser (db : List UserRecord) (u : UserRecord) : List UserRecord :=
  db.map (fun v => if v.id = u.id then u else v)

/-! ## Credential & MFA state machine — `controllers/authController.js` -/

/-- Embeds `register` from `controllers/authController.js` lines 53-180.  The
TOTP secret, QR payload and RSA key pair do not affect the verified
properties and are elided; the generated per-account salt and the new
record id are threaded as explicit arguments standing for the random
sources.  Branch order and messages are the source's. -/
def register (db : List UserRecord) (username email : String) (password : List Nat)
    (role : String) (newId : Nat) (salt : List Nat) : ApiResponse × List UserRecord :=
  if username = "" ∨ email = "" ∨ password = [] then
    (⟨400, false, "Please provide username, email, and password."⟩, db)
  else if password.length < 8 then
    (⟨400, false, "Password must be at least 8 characters long."⟩, db)
  else if db.any (fun u => u.email = email || u.username = username) then
    (⟨400, false, "User with this email or username already exists."⟩, db)
  else
    let allowedRole :=
      if role = "admin" ∨ role = "premium" ∨ role = "guest" then role else "guest"
    if allowedRole = "admin" ∧ db.any (fun u => u.role = "admin") then
      (⟨400, false, "Admin account already exists. Only one admin is allowed."⟩, db)
    else
      (⟨201, true, "Registration successful. Please set up MFA."⟩,
       db ++ [{ id := newId
                username := username
                email := email
                passwordHash := bcryptHash password
                role := allowedRole
                mfaVerified := false
                encryptionSalt := some salt
                loginAttempts := 0
                lockUntil := none
                lastLogin := none }])

/-- Outcome of the `login` controller: response, updated user store,
whether the dummy bcrypt comparison against the fixed hash was performed
(the unknown-email branch), and the audit events (action, status) it
emitted. -/
structure LoginResult where
  resp : ApiResponse
  db : List UserRecord
  dummyCompared : Bool
  audits : List (String × String)
deriving Repr, DecidableEq

/-- Embeds `login` from `controllers/authController.js` lines 188-293: input
validation, account lookup with a dummy comparison when the email is
unknown, lock check, password verification with failed-attempt counting,
and the MFA-pending success response. -/
def login (db : List UserRecord) (email : String) (password : List Nat)
    (now : Nat) : LoginResult :=
  if email = "" ∨ password = [] then
    ⟨⟨400, false, "Please provide email and password."⟩, db, false, []⟩
  else
    match db.find? (fun u => u.email = email) with
    | none =>
        ⟨⟨401, false, "Invalid credentials."⟩, db, true, []⟩
    | some user =>
        if isLocked user now then
          ⟨⟨423, false, "Account is temporarily locked. Try again later."⟩,
           db, false, [("LOGIN_FAILED", "DENIED")]⟩
        else if bcryptCompare password user.passwordHash then
          ⟨⟨200, true, "Password verified. Please enter MFA code."⟩, db, false, []⟩
        else
          ⟨⟨401, false, "Invalid credentials."⟩,
           updateUser db (incrementLoginAttempts user now), false,
           [("LOGIN_FAILED", "FAILED")]⟩

/-- The account mutation of a successful MFA verification,
`controllers/authController.js` lines 343-367: mark MFA verified on first
success, reset the failed-login counter and clear the lock when the
counter is positive, record last login. -/
def verifyMFASuccess (u : UserRecord) (now : Nat) : UserRecord :=
  let u1 := if u.mfaVerified then u else { u with mfaVerified := true }
  let u2 :=
    if u1.loginAttempts > 0 then { u1 with loginAttempts := 0, lockUntil := none }
    else u1
  { u2 with lastLogin := some now }

/-- Embeds `verifyMFA` from `controllers/authController.js` lines 299-417.  The
TOTP check (`speakeasy`, external) is threaded as the boolean `verified`;
`tokenProvided` models the presence of the submitted code. -/
def verifyMFA (u : UserRecord) (tokenProvided verified : Bool)
    (now : Nat) : ApiResponse × UserRecord :=
  if ¬ tokenProvided then
    (⟨400, false, "Please provide MFA token."⟩, u)
  else if ¬ verified then
    (⟨401, false, "Invalid MFA code. Please try again."⟩, u)
  else
    (⟨200, true, "Login successful."⟩, verifyMFASuccess u now)

/-- The user store after a `login` call. -/
def loginDb (db : List UserRecord) (email : String) (password : List Nat)
    (now : Nat) : List UserRecord :=
  (login db email password now).db

/-- Iterated login attempts at the given sequence of times. -/
def loginTimes (db : List UserRecord) (email : String) (password : List Nat)
    (ts : List Nat) : List UserRecord :=
  ts.foldl (fun d t => loginDb d email password t) db

/-! ## File data model — `models/File.js` -/

/-- Stored file metadata record, the fields of `fileSchema` in
`models/File.js` that the embedded operations read or write.  The
`encryptedKey` field holds the wrapped per-file key triple the source
serializes as JSON (`{ data, iv, authTag }`); `encryptedPath` is the
opaque blob reference. -/
structure FileRecord where
  id : Nat
  originalName : String
  mimeType : String
  size : Nat
  encryptedPath : Nat
  owner : Nat
  accessLevel : String
  iv : List Nat
  authTag : AuthTag
  encryptedKey : EncryptedFile
  fileSalt : Option (List Nat)
  sha256Hash : Nat
  keyExchangeEnabled : Bool
  shareToken : Option Nat
  shareExpiry : Option Nat
  downloadCount : Nat
  isDeleted : Bool
  deletedAt : Option Nat
deriving Repr, DecidableEq

/-- The `fileSchema.pre(/^find/)` hook in `models/File.js` lines 185-188:
every find-family query first filters to `isDeleted ≠ true`. -/
def preFindFilter (db : List FileRecord) : List FileRecord :=
  db.filter (fun f => !f.isDeleted)

/-- Embeds `File.findById` as issued by the controllers: the pre-find hook
followed by an id lookup. -/
def findById (db : List FileRecord) (fid : Nat) : Option FileRecord :=
  (preFindFilter db).find? (fun f => f.id = fid)

/-- Embeds `File.find(query)`: the pre-find hook followed by the query filter. -/
def findByQuery (db : List FileRecord) (q : FileRecord → Bool) : List FileRecord :=
  (preFindFilter db).filter q

/-- Embeds `File.findOne({ shareToken, shareExpiry: { $gt: new Date() } })` from
`fileController.js` lines 622-625, behind the pre-find hook. -/
def findByShareToken (db : List FileRecord) (token : Nat) (now : Nat) :
    Option FileRecord :=
  (preFindFilter db).find? (fun f =>
    f.shareToken == some token &&
    match f.shareExpiry with
    | some e => decide (now < e)
    | none => false)

/-- Persist a mutated file record (`file.save()`): every stored record
with the same id takes the new value. -/
def updateFile (db : List FileRecord) (f : FileRecord) : List FileRecord :=
  db.map (fun g => if g.id = f.id then f else g)

/-! ## Asymmetric exchange unit — `utils/keyExchange.js` -/

/-- Modelled from the spec: RSA-OAEP wrapping of a symmetric key under a
recipient public key (Node `crypto`, external); idealized as a perfectly
binding container of payload and recipient key. -/
structure RSAWrapped where
  data : List Nat
  publicKey : String
deriving Repr, DecidableEq

/-- Embeds `encryptWithPublicKey(data, publicKeyPem)` from `utils/keyExchange.js`
lines 64-74. -/
def encryptWithPublicKey (data : List Nat) (publicKeyPem : String) : RSAWrapped :=
  ⟨data, publicKeyPem⟩

/-- Embeds `encryptWithAES(data, aesKey)` from `utils/keyExchange.js`
lines 96-112; the fresh random IV is threaded explicitly. -/
def encryptWithAES (data aesKey iv : List Nat) : EncryptedFile :=
  { encryptedData := gcmStream aesKey iv 0 data
    iv := iv
    authTag := gcmTag aesKey iv (gcmStream aesKey iv 0 data) }

/-- Embeds `encryptForKeyExchange(fileData, guestPublicKey)` from
`utils/keyExchange.js` lines 127-141: fresh AES key (threaded as
`aesKey`), AES-encrypt the payload, RSA-wrap the AES key. -/
def encryptForKeyExchange (fileData : List Nat) (guestPublicKey : String)
    (aesKey iv : List Nat) : EncryptedFile × RSAWrapped :=
  (encryptWithAES fileData aesKey iv, encryptWithPublicKey aesKey guestPublicKey)

/-! ## File pipeline orchestrator — `controllers/fileController.js` -/

/-- Result shape of the upload controller: response, created metadata
record, encrypted blob written to disk. -/
structure UploadResult where
  resp : ApiResponse
  record : Option FileRecord
  blob : Option (List Nat)
deriving Repr, DecidableEq

/-- Embeds `uploadFile` from `controllers/fileController.js` lines 57-213: hash
the plaintext, encrypt it under a fresh per-file key, require the
out-of-band password, derive the master key from the fresh per-file salt,
wrap the per-file key, and persist record and blob.  Random sources
(per-file key, per-file salt, both IVs, the new id) are threaded as
explicit arguments; a thrown cipher error maps to the catch-all 500. -/
def uploadFile (hasFile : Bool) (name mime : String) (P : List Nat)
    (ownerId : Nat) (ownerSalt : Option (List Nat)) (lvl : String)
    (password : Option (List Nat)) (fileKey fileSalt ivFile ivKey : List Nat)
    (newId : Nat) : UploadResult :=
  if ¬ hasFile then
    ⟨⟨400, false, "No file uploaded."⟩, none, none⟩
  else
    match ownerSalt with
    | none => ⟨⟨500, false, "User encryption not configured."⟩, none, none⟩
    | some _ =>
        match encryptFile P fileKey ivFile with
        | .error _ => ⟨⟨500, false, "File upload failed."⟩, none, none⟩
        | .ok encFile =>
            match password with
            | none => ⟨⟨400, false, "Encryption password required."⟩, none, none⟩
            | some pw =>
                match encryptKey fileKey (deriveKey pw fileSalt) ivKey with
                | .error _ => ⟨⟨500, false, "File upload failed."⟩, none, none⟩
                | .ok wrapped =>
                    ⟨⟨201, true, "File uploaded and encrypted successfully."⟩,
                     some { id := newId
                            originalName := name
                            mimeType := mime
                            size := P.length
                            encryptedPath := newId
                            owner := ownerId
                            accessLevel := lvl
                            iv := encFile.iv
                            authTag := encFile.authTag
                            encryptedKey := wrapped
                            fileSalt := some fileSalt
                            sha256Hash := calculateHash P
                            keyExchangeEnabled := true
                            shareToken := none
                            shareExpiry := none
                            downloadCount := 0
                            isDeleted := false
                            deletedAt := none },
                     some encFile.encryptedData⟩

/-- The ciphertext blob `uploadFile` writes to disk. -/
def uploadBlob (P fileKey ivFile : List Nat) : List Nat :=
  gcmStream fileKey ivFile 0 P

/-- The wrapped per-file key triple `uploadFile` stores: the per-file key
AEAD-encrypted under the master key derived from (password, per-file
salt). -/
def wrapKey (fileKey pw salt ivKey : List Nat) : EncryptedFile :=
  { encryptedData := gcmStream (deriveKey pw salt) ivKey 0 fileKey
    iv := ivKey
    authTag := gcmTag (deriveKey pw salt) ivKey
      (gcmStream (deriveKey pw salt) ivKey 0 fileKey) }

/-- The metadata record `uploadFile` persists on the success path. -/
def uploadRecord (name mime : String) (P : List Nat) (ownerId : Nat)
    (lvl : String) (pw fileKey fileSalt ivFile ivKey : List Nat)
    (newId : Nat) : FileRecord :=
  { id := newId
    originalName := name
    mimeType := mime
    size := P.length
    encryptedPath := newId
    owner := ownerId
    accessLevel := lvl
    iv := ivFile
    authTag := gcmTag fileKey ivFile (uploadBlob P fileKey ivFile)
    encryptedKey := wrapKey fileKey pw fileSalt ivKey
    fileSalt := some fileSalt
    sha256Hash := calculateHash P
    keyExchangeEnabled := true
    shareToken := none
    shareExpiry := none
    downloadCount := 0
    isDeleted := false
    deletedAt := none }

/-- Embeds `saltToUse` resolution in `downloadFile`, `fileController.js`
lines 256-268: the file's own salt, else the owner account's salt. -/
def saltResolve (fileSalt ownerSalt : Option (List Nat)) : Option (List Nat) :=
  match fileSalt with
  | some s => some s
  | none => ownerSalt

/-- Result shape of the download controller: response, audit events
emitted, the persisted file record after the call, and the plaintext
returned to the client (if any). -/
structure DownloadResult where
  resp : ApiResponse
  audits : List (String × String)
  record : Option FileRecord
  plaintext : Option (List Nat)
deriving Repr, DecidableEq

/-- Embeds `downloadFile` from `controllers/fileController.js` lines 219-406:
not-found check, vault owner-or-admin gate, password requirement, salt
resolution failing closed, per-file key unwrap (any failure reported as
the 401 invalid-password response), content decryption (failure audited
as INTEGRITY_CHECK_FAILED and reported as the 500 corruption response),
digest verification (audited either way, mismatch fatal), then the
download-count increment and the plaintext response (the raw 200 `send`
is modelled with an empty message). -/
def downloadFile (file? : Option FileRecord) (userRole : String) (userId : Nat)
    (password : Option (List Nat)) (ownerSalt : Option (List Nat))
    (blob : List Nat) : DownloadResult :=
  match file? with
  | none => ⟨⟨404, false, "File not found."⟩, [], none, none⟩
  | some file =>
      if file.accessLevel = "vault" ∧ userRole ≠ "admin" ∧ file.owner ≠ userId then
        ⟨⟨403, false, "Access denied."⟩, [], some file, none⟩
      else
        match password with
        | none => ⟨⟨400, false, "Decryption password required."⟩, [], some file, none⟩
        | some pw =>
            match saltResolve file.fileSalt ownerSalt with
            | none =>
                ⟨⟨500, false, "File encryption metadata missing."⟩, [], some file, none⟩
            | some saltToUse =>
                match decryptKey file.encryptedKey.encryptedData file.encryptedKey.iv
                    file.encryptedKey.authTag (deriveKey pw saltToUse) with
                | .error _ =>
                    ⟨⟨401, false, "Invalid decryption password."⟩, [], some file, none⟩
                | .ok fileKey =>
                    match decryptFile blob file.iv file.authTag fileKey with
                    | .error _ =>
                        ⟨⟨500, false, "File integrity check failed. File may be corrupted."⟩,
                         [("INTEGRITY_CHECK_FAILED", "FAILED")], some file, none⟩
                    | .ok decryptedData =>
                        if verifyIntegrity decryptedData file.sha256Hash then
                          ⟨⟨200, true, ""⟩,
                           [("INTEGRITY_CHECK_PASSED", "SUCCESS"),
                            ("FILE_DOWNLOAD", "SUCCESS")],
                           some { file with downloadCount := file.downloadCount + 1 },
                           some decryptedData⟩
                        else
                          ⟨⟨500, false, "File integrity check failed. File has been tampered with."⟩,
                           [("INTEGRITY_CHECK_FAILED", "FAILED")], some file, none⟩

/-- Result shape of the key-exchange download controller, mirroring the
fields of its 200 response body. -/
structure KeyExchangeResult where
  resp : ApiResponse
  encryptedFile : Option EncryptedFile
  encryptedAESKey : Option RSAWrapped
  originalIv : Option (List Nat)
  originalAuthTag : Option AuthTag
  sha256Hash : Option Nat
  record : Option FileRecord
  audits : List (String × String)
deriving Repr, DecidableEq

/-- Embeds `keyExchangeDownload` from `controllers/fileController.js`
lines 684-778: requires a guest public key and an existing (non-deleted)
file with `keyExchangeEnabled`; performs no role, ownership or
access-level check and no digest verification; re-encrypts the stored
ciphertext under a fresh AES key, wraps that key under the guest public
key, increments the download counter, and returns both layers plus the
original iv/authTag and the stored sha256Hash.  The requesting user's
role and id are threaded to show they are never consulted. -/
def keyExchangeDownload (guestPublicKey : Option String)
    (file? : Option FileRecord) (blob aesKey iv : List Nat)
    (_userRole : String) (_userId : Nat) : KeyExchangeResult :=
  match guestPublicKey with
  | none =>
      ⟨⟨400, false, "Guest public key is required for key exchange."⟩,
       none, none, none, none, none, none, []⟩
  | some gpk =>
      match file? with
      | none => ⟨⟨404, false, "File not found."⟩, none, none, none, none, none, none, []⟩
      | some file =>
          if ¬ file.keyExchangeEnabled then
            ⟨⟨400, false, "Key exchange not available for this file. Use password-based download."⟩,
             none, none, none, none, none, some file, []⟩
          else
            let result := encryptForKeyExchange blob gpk aesKey iv
            ⟨⟨200, true, "Key exchange successful. File encrypted with RSA-exchanged key."⟩,
             some result.1, some result.2, some file.iv, some file.authTag,
             some file.sha256Hash,
             some { file with downloadCount := file.downloadCount + 1 },
             [("KEY_EXCHANGE_DOWNLOAD", "SUCCESS")]⟩

/-- Embeds `shareFile` from `controllers/fileController.js` lines 481-551:
not-found check, owner-or-admin gate, then store the generated share
token and expiry (threaded as explicit arguments). -/
def shareFile (db : List FileRecord) (fid : Nat) (userRole : String)
    (userId : Nat) (token expiry : Nat) : ApiResponse × List FileRecord :=
  match findById db fid with
  | none => (⟨404, false, "File not found."⟩, db)
  | some file =>
      if userRole ≠ "admin" ∧ file.owner ≠ userId then
        (⟨403, false, "Access denied."⟩, db)
      else
        (⟨200, true, "Share link generated successfully."⟩,
         updateFile db { file with shareToken := some token, shareExpiry := some expiry })

/-- Embeds `deleteFile` from `controllers/fileController.js` lines 557-614:
not-found check, owner-or-admin gate, then the soft delete (flag and
timestamp); the best-effort blob unlink does not affect the record
store. -/
def deleteFile (db : List FileRecord) (fid : Nat) (userRole : String)
    (userId : Nat) (now : Nat) : ApiResponse × List FileRecord :=
  match findById db fid with
  | none => (⟨404, false, "File not found."⟩, db)
  | some file =>
      if userRole ≠ "admin" ∧ file.owner ≠ userId then
        (⟨403, false, "Access denied."⟩, db)
      else
        (⟨200, true, "File deleted successfully."⟩,
         updateFile db { file with isDeleted := true, deletedAt := some now })

/-- An account record whose failed-login counter and lock fields are set
to explicit values, all other fields untouched. -/
def plainUser (u : UserRecord) (attempts : Nat) (lock : Option Nat) : UserRecord :=
  { u with loginAttempts := attempts, lockUntil := lock }

/-- The existing admin account used to exercise the second-admin
registration branch. -/
def existingAdmin : UserRecord :=
  { id := 1
    username := "root"
    email := "root@example.com"
    passwordHash := bcryptHash [0, 0, 0, 0, 0, 0, 0, 0]
    role := "admin"
    mfaVerified := true
    encryptionSalt := some [1]
    loginAttempts := 0
    lockUntil := none
    lastLogin := none }

/-- A pre-fileSalt ("legacy") stored record: the wrap was produced under
the owner account's salt and the per-file salt field is null
(`models/File.js` lines 99-102, "Optional for backward compatibility"). -/
def legacyRecord (name mime : String) (P : List Nat) (ownerId : Nat)
    (lvl : String) (pw fileKey osalt ivFile ivKey : List Nat)
    (newId : Nat) : FileRecord :=
  { uploadRecord name mime P ownerId lvl pw fileKey osalt ivFile ivKey newId with
    fileSalt := none }

/-- A concrete vault-level stored file used to instantiate witnesses. -/
def sampleVaultFile : FileRecord :=
  { id := 1
    originalName := "secret.txt"
    mimeType := "text/plain"
    size := 2
    encryptedPath := 1
    owner := 7
    accessLevel := "vault"
    iv := [4]
    authTag := gcmTag [] [4] []
    encryptedKey := { encryptedData := [], iv := [5], authTag := gcmTag [] [5] [] }
    fileSalt := some [3]
    sha256Hash := 0
    keyExchangeEnabled := true
    shareToken := none
    shareExpiry := none
    downloadCount := 0
    isDeleted := false
    deletedAt := none }

/-! ## Theorems -/

/-! ### Basic lemmas about the primitives -/

theorem gcmStream_involutive (key iv : List Nat) :
    ∀ (i : Nat) (p : List Nat), gcmStream key iv i (gcmStream key iv i p) = p := by
  intro i p
  induction p generalizing i with
  | nil => rfl
  | cons b rest ih =>
      simp [gcmStream, Nat.xor_cancel_right, ih]

theorem gcmTag_inj {key key' iv iv' c c' : List Nat}
    (h : gcmTag key iv c = gcmTag key' iv' c') :
    key = key' ∧ iv = iv' ∧ c = c' := by
  simpa [gcmTag, AuthTag.mk.injEq] using h

theorem deriveKey_length (password salt : List Nat) :
    (deriveKey password salt).length = 32 := by
  simp [deriveKey]

theorem deriveKey_inj {p p' s s' : List Nat}
    (h : deriveKey p s = deriveKey p' s') : p = p' ∧ s = s' := by
  have hhead : Nat.pair (Encodable.encode p) (Encodable.encode s)
      = Nat.pair (Encodable.encode p') (Encodable.encode s') := by
    simpa [deriveKey] using congrArg (fun l => l.headD 0) h
  have hpair := congrArg Nat.unpair hhead
  simp only [Nat.unpair_pair, Prod.mk.injEq] at hpair
  exact ⟨Encodable.encode_injective hpair.1, Encodable.encode_injective hpair.2⟩

theorem calculateHash_inj {p p' : List Nat}
    (h : calculateHash p = calculateHash p') : p = p' :=
  Encodable.encode_injective h

/-! ### Auth helper lemmas -/

theorem isLocked_none {u : UserRecord} (h : u.lockUntil = none) (now : Nat) :
    isLocked u now = false := by
  simp [isLocked, h]

theorem incrementLoginAttempts_below {u : UserRecord} (now : Nat)
    (hl : u.lockUntil = none) (hlt : u.loginAttempts + 1 < 5) :
    incrementLoginAttempts u now = { u with loginAttempts := u.loginAttempts + 1 } := by
  simp [incrementLoginAttempts, hl]
  omega

theorem incrementLoginAttempts_fifth {u : UserRecord} (now : Nat)
    (hl : u.lockUntil = none) (h4 : u.loginAttempts = 4) :
    incrementLoginAttempts u now =
      { u with loginAttempts := 5, lockUntil := some (now + 7200000) } := by
  simp [incrementLoginAttempts, hl, h4]

theorem login_wrong_pw (u : UserRecord) (email : String) (pw : List Nat) (now : Nat)
    (hem : u.email = email) (he : email ≠ "") (hp : pw ≠ [])
    (hnl : isLocked u now = false)
    (hc : bcryptCompare pw u.passwordHash = false) :
    login [u] email pw now =
      ⟨⟨401, false, "Invalid credentials."⟩,
       [incrementLoginAttempts u now], false, [("LOGIN_FAILED", "FAILED")]⟩ := by
  have hid : (incrementLoginAttempts u now).id = u.id := by
    cases h : u.lockUntil <;>
      simp only [incrementLoginAttempts, h] <;>
      (repeat' split) <;> rfl
  simp [login, hem, he, hp, hnl, hc, updateUser, hid]

theorem login_locked (u : UserRecord) (email : String) (pw : List Nat) (now : Nat)
    (hem : u.email = email) (he : email ≠ "") (hp : pw ≠ [])
    (hlk : isLocked u now = true) :
    login [u] email pw now =
      ⟨⟨423, false, "Account is temporarily locked. Try again later."⟩,
       [u], false, [("LOGIN_FAILED", "DENIED")]⟩ := by
  simp [login, hem, he, hp, hlk]

theorem loginDb_fail_step (u : UserRecord) (k : Nat) (pw : List Nat) (t : Nat)
    (he : u.email ≠ "") (hp : pw ≠ [])
    (hc : bcryptCompare pw u.passwordHash = false)
    (hk : k + 1 < 5) :
    loginDb [plainUser u k none] u.email pw t = [plainUser u (k + 1) none] := by
  rw [loginDb,
    login_wrong_pw (plainUser u k none) u.email pw t rfl he hp
      (isLocked_none rfl t) hc,
    incrementLoginAttempts_below t rfl hk]
  rfl

theorem loginDb_fifth_step (u : UserRecord) (pw : List Nat) (t : Nat)
    (he : u.email ≠ "") (hp : pw ≠ [])
    (hc : bcryptCompare pw u.passwordHash = false) :
    loginDb [plainUser u 4 none] u.email pw t =
      [plainUser u 5 (some (t + 7200000))] := by
  rw [loginDb,
    login_wrong_pw (plainUser u 4 none) u.email pw t rfl he hp
      (isLocked_none rfl t) hc,
    incrementLoginAttempts_fifth t rfl rfl]
  rfl

/-- C1: evidence against the claimed downgrade semantics.  With an admin
account already stored, a valid registration request for role=admin is
rejected with 400 "Admin account already exists. Only one admin is
allowed." and no account is created — it is not downgraded to a guest
account, contradicting both the claim and the source's own comment that a
second admin request is "downgraded to 'guest'". -/
theorem register_second_admin_rejected_not_downgraded :
    register [existingAdmin] "second" "second@example.com"
        [0, 0, 0, 0, 0, 0, 0, 1] "admin" 2 [9] =
      (⟨400, false, "Admin account already exists. Only one admin is allowed."⟩,
       [existingAdmin]) := by
  decide

/-- C5: from a zero counter with no lock, five consecutive failed password
attempts leave the counter at 5 and set a lock of exactly 2 hours
(7200000 ms) from the fifth attempt, while four attempts set no lock; a
further login during the lock window is answered with the locked response
and leaves the store unchanged (the counter is not incremented); and a
successful MFA completion resets the counter to 0 and clears the lock. -/
theorem lockout_five_failed_attempts
    (u : UserRecord) (pw : List Nat) (t1 t2 t3 t4 t5 t6 t7 : Nat)
    (h0 : u.loginAttempts = 0) (hl : u.lockUntil = none)
    (he : u.email ≠ "") (hp : pw ≠ [])
    (hc : bcryptCompare pw u.passwordHash = false)
    (h6 : t6 < t5 + 7200000) :
    (∃ u4, loginTimes [u] u.email pw [t1, t2, t3, t4] = [u4] ∧
      u4.loginAttempts = 4 ∧ u4.lockUntil = none) ∧
    (∃ u5, loginTimes [u] u.email pw [t1, t2, t3, t4, t5] = [u5] ∧
      u5.loginAttempts = 5 ∧ u5.lockUntil = some (t5 + 7200000) ∧
      login [u5] u.email pw t6 =
        ⟨⟨423, false, "Account is temporarily locked. Try again later."⟩,
         [u5], false, [("LOGIN_FAILED", "DENIED")]⟩ ∧
      (verifyMFA u5 true true t7).2.loginAttempts = 0 ∧
      (verifyMFA u5 true true t7).2.lockUntil = none) := by
  have hu : u = plainUser u 0 none := by
    cases u
    simp_all [plainUser]
  have hlist : ([u] : List UserRecord) = [plainUser u 0 none] := by rw [← hu]
  have s1 := loginDb_fail_step u 0 pw t1 he hp hc (by omega)
  have s2 := loginDb_fail_step u 1 pw t2 he hp hc (by omega)
  have s3 := loginDb_fail_step u 2 pw t3 he hp hc (by omega)
  have s4 := loginDb_fail_step u 3 pw t4 he hp hc (by omega)
  have s5 := loginDb_fifth_step u pw t5 he hp hc
  norm_num at s1 s2 s3 s4
  have h4 : loginTimes [u] u.email pw [t1, t2, t3, t4] = [plainUser u 4 none] := by
    rw [loginTimes]
    simp only [List.foldl]
    rw [hlist, s1, s2, s3, s4]
  have h5 : loginTimes [u] u.email pw [t1, t2, t3, t4, t5] =
      [plainUser u 5 (some (t5 + 7200000))] := by
    rw [loginTimes]
    simp only [List.foldl]
    rw [hlist, s1, s2, s3, s4, s5]
  refine ⟨⟨plainUser u 4 none, h4, rfl, rfl⟩,
    ⟨plainUser u 5 (some (t5 + 7200000)), h5, rfl, rfl, ?_, ?_, ?_⟩⟩
  · exact login_locked (plainUser u 5 (some (t5 + 7200000))) u.email pw t6 rfl he hp
      (by simp [isLocked, plainUser, h6])
  · cases hmv : u.mfaVerified <;>
      simp [verifyMFA, verifyMFASuccess, plainUser, hmv]
  · cases hmv : u.mfaVerified <;>
      simp [verifyMFA, verifyMFASuccess, plainUser, hmv]

/-- Witness for C5: a concrete account, wrong password and time line. -/
theorem lockout_five_failed_attempts_witness :
    (∃ u4, loginTimes [existingAdmin] existingAdmin.email [3] [10, 20, 30, 40] = [u4] ∧
      u4.loginAttempts = 4 ∧ u4.lockUntil = none) ∧
    (∃ u5, loginTimes [existingAdmin] existingAdmin.email [3] [10, 20, 30, 40, 50] = [u5] ∧
      u5.loginAttempts = 5 ∧ u5.lockUntil = some (50 + 7200000) ∧
      login [u5] existingAdmin.email [3] 60 =
        ⟨⟨423, false, "Account is temporarily locked. Try again later."⟩,
         [u5], false, [("LOGIN_FAILED", "DENIED")]⟩ ∧
      (verifyMFA u5 true true 70).2.loginAttempts = 0 ∧
      (verifyMFA u5 true true 70).2.lockUntil = none) :=
  lockout_five_failed_attempts existingAdmin [3] 10 20 30 40 50 60 70
    (by decide) (by decide) (by decide) (by decide) (by decide) (by decide)

/-- C8: the login outcome does not reveal account existence: a request
with an unknown email performs the dummy password comparison and returns
status 401 with message "Invalid credentials.", exactly the status and
message returned for an existing, unlocked account with a wrong
password. -/
theorem login_no_account_existence_oracle
    (db : List UserRecord) (email : String) (pw : List Nat) (now : Nat)
    (he : email ≠ "") (hp : pw ≠ []) :
    (db.find? (fun u => u.email = email) = none →
      login db email pw now = ⟨⟨401, false, "Invalid credentials."⟩, db, true, []⟩) ∧
    (∀ u, db.find? (fun u => u.email = email) = some u →
      isLocked u now = false →
      bcryptCompare pw u.passwordHash = false →
      (login db email pw now).resp = ⟨401, false, "Invalid credentials."⟩) := by
  constructor
  · intro hnone
    simp [login, he, hp, hnone]
  · intro u hsome hnl hc
    simp [login, he, hp, hsome, hnl, hc]

/-- Witness for C8: both branches at concrete stores. -/
theorem login_no_account_existence_oracle_witness :
    login [existingAdmin] "ghost@example.com" [3] 0 =
      ⟨⟨401, false, "Invalid credentials."⟩, [existingAdmin], true, []⟩ ∧
    (login [existingAdmin] "root@example.com" [3] 0).resp =
      ⟨401, false, "Invalid credentials."⟩ :=
  ⟨(login_no_account_existence_oracle [existingAdmin] "ghost@example.com" [3] 0
      (by decide) (by decide)).1 (by decide),
   (login_no_account_existence_oracle [existingAdmin] "root@example.com" [3] 0
      (by decide) (by decide)).2 existingAdmin (by decide) (by decide) (by decide)⟩

/-! ### File pipeline helper lemmas -/

theorem uploadFile_ok (name mime : String) (P : List Nat) (ownerId : Nat)
    (osalt : List Nat) (lvl : String) (pw fileKey fileSalt ivFile ivKey : List Nat)
    (newId : Nat) (hk : fileKey.length = 32) :
    uploadFile true name mime P ownerId (some osalt) lvl (some pw)
        fileKey fileSalt ivFile ivKey newId =
      ⟨⟨201, true, "File uploaded and encrypted successfully."⟩,
       some (uploadRecord name mime P ownerId lvl pw fileKey fileSalt ivFile ivKey newId),
       some (uploadBlob P fileKey ivFile)⟩ := by
  simp [uploadFile, encryptFile, encryptKey, hk, deriveKey_length,
    uploadRecord, uploadBlob, wrapKey]

theorem decryptKey_wrap_ok (fileKey pw salt ivKey : List Nat) :
    decryptKey (wrapKey fileKey pw salt ivKey).encryptedData
        (wrapKey fileKey pw salt ivKey).iv
        (wrapKey fileKey pw salt ivKey).authTag (deriveKey pw salt) =
      .ok fileKey := by
  simp [decryptKey, decryptFile, wrapKey, deriveKey_length, gcmStream_involutive]

theorem decryptKey_wrap_wrong_key (fileKey pw salt ivKey : List Nat)
    (mk' : List Nat) (hne : mk' ≠ deriveKey pw salt) (hlen : mk'.length = 32) :
    decryptKey (wrapKey fileKey pw salt ivKey).encryptedData
        (wrapKey fileKey pw salt ivKey).iv
        (wrapKey fileKey pw salt ivKey).authTag mk' =
      .error "AUTH_FAILED: Decryption authentication failed" := by
  have htag : ¬ (gcmTag (deriveKey pw salt) ivKey
        (gcmStream (deriveKey pw salt) ivKey 0 fileKey) =
      gcmTag mk' ivKey (gcmStream (deriveKey pw salt) ivKey 0 fileKey)) := by
    intro h
    exact hne ((gcmTag_inj h).1).symm
  simp [decryptKey, decryptFile, wrapKey, hlen, htag]

theorem decryptFile_gcm_ok (P key iv : List Nat) (hk : key.length = 32) :
    decryptFile (gcmStream key iv 0 P) iv
        (gcmTag key iv (gcmStream key iv 0 P)) key = .ok P := by
  simp [decryptFile, hk, gcmStream_involutive]

theorem decryptFile_gcm_tampered (P key iv c' : List Nat) (hk : key.length = 32)
    (hne : c' ≠ gcmStream key iv 0 P) :
    decryptFile c' iv (gcmTag key iv (gcmStream key iv 0 P)) key =
      .error "AUTH_FAILED: Decryption authentication failed" := by
  have htag : ¬ (gcmTag key iv (gcmStream key iv 0 P) = gcmTag key iv c') := by
    intro h
    exact hne (gcmTag_inj h).2.2.symm
  simp [decryptFile, hk, htag]

theorem file_ne_countBump (file : FileRecord) :
    ¬ (file = { file with downloadCount := file.downloadCount + 1 }) := by
  intro h
  have := congrArg FileRecord.downloadCount h
  simp at this

/-- C2: envelope-path round trip and tamper rejection: for every plaintext
and every 32-byte key, decrypting the output of `encryptFile` returns the
plaintext, while any change to the ciphertext or to the authentication tag
makes `decryptFile` fail with the AUTH_FAILED error and return no
plaintext. -/
theorem encryptFile_decryptFile_roundtrip_and_tamper
    (P K iv : List Nat) (hK : K.length = 32) :
    ∃ E : EncryptedFile,
      encryptFile P K iv = .ok E ∧
      decryptFile E.encryptedData iv E.authTag K = .ok P ∧
      (∀ c' : List Nat, c' ≠ E.encryptedData →
        decryptFile c' iv E.authTag K =
          .error "AUTH_FAILED: Decryption authentication failed") ∧
      (∀ t' : AuthTag, t' ≠ E.authTag →
        decryptFile E.encryptedData iv t' K =
          .error "AUTH_FAILED: Decryption authentication failed") := by
  refine ⟨{ encryptedData := gcmStream K iv 0 P
            iv := iv
            authTag := gcmTag K iv (gcmStream K iv 0 P) }, ?_, ?_, ?_, ?_⟩
  · simp [encryptFile, hK]
  · simp [decryptFile, hK, gcmStream_involutive]
  · intro c' hc'
    have htag : ¬ (gcmTag K iv (gcmStream K iv 0 P) = gcmTag K iv c') := by
      intro h
      exact hc' (gcmTag_inj h).2.2.symm
    simp [decryptFile, hK, htag]
  · intro t' ht'
    simp [decryptFile, hK, ht']

/-- Witness for C2 at a concrete plaintext, key and iv. -/
theorem encryptFile_decryptFile_roundtrip_and_tamper_witness :
    (List.replicate 32 0 : List Nat).length = 32 ∧
    ∃ E : EncryptedFile,
      encryptFile [7, 1, 3] (List.replicate 32 0) [9] = .ok E ∧
      decryptFile E.encryptedData [9] E.authTag (List.replicate 32 0) = .ok [7, 1, 3] ∧
      (∀ c' : List Nat, c' ≠ E.encryptedData →
        decryptFile c' [9] E.authTag (List.replicate 32 0) =
          .error "AUTH_FAILED: Decryption authentication failed") ∧
      (∀ t' : AuthTag, t' ≠ E.authTag →
        decryptFile E.encryptedData [9] t' (List.replicate 32 0) =
          .error "AUTH_FAILED: Decryption authentication failed") :=
  ⟨by decide,
   encryptFile_decryptFile_roundtrip_and_tamper [7, 1, 3] (List.replicate 32 0) [9]
     (by decide)⟩

/-- C7: the content digest is deterministic, verification accepts the
digest of the hashed content, and rejects any different content (the
digest is modelled injective, per the spec's collision-resistance
assumption on SHA-256). -/
theorem calculateHash_verifyIntegrity_sound_complete (P P' : List Nat) :
    calculateHash P = calculateHash P ∧
    verifyIntegrity P (calculateHash P) = true ∧
    (P' ≠ P → verifyIntegrity P' (calculateHash P) = false) := by
  refine ⟨rfl, by simp [verifyIntegrity], ?_⟩
  intro hne
  have : calculateHash P' ≠ calculateHash P := fun h => hne (calculateHash_inj h)
  simpa [verifyIntegrity] using this

/-- Witness for C7 at concrete contents differing in a single position. -/
theorem calculateHash_verifyIntegrity_sound_complete_witness :
    calculateHash [0, 1] = calculateHash [0, 1] ∧
    verifyIntegrity [0, 1] (calculateHash [0, 1]) = true ∧
    ([1, 1] ≠ [0, 1] → verifyIntegrity [1, 1] (calculateHash [0, 1]) = false) :=
  calculateHash_verifyIntegrity_sound_complete [0, 1] [1, 1]

theorem preFindFilter_not_deleted {db : List FileRecord} {f : FileRecord}
    (h : f ∈ preFindFilter db) : f.isDeleted = false := by
  have := (List.mem_filter.mp h).2
  simpa using this

/-- C3: the key-exchange download path has no owner-or-admin and no
access-level gate and does not verify the digest: for every authenticated
requester (any role, any user id) and every stored, non-deleted file with
`keyExchangeEnabled`, the operation succeeds and returns the stored
ciphertext re-encrypted under the fresh AES key, the AES key wrapped
under the guest public key, the file's original iv and authTag, and the
stored sha256Hash as-is. -/
theorem keyExchangeDownload_no_acl_no_digest_check
    (db : List FileRecord) (fid : Nat) (file : FileRecord) (gpk : String)
    (blob aesKey iv : List Nat) (role : String) (uid : Nat)
    (hfind : findById db fid = some file)
    (hkx : file.keyExchangeEnabled = true) :
    file.isDeleted = false ∧
    keyExchangeDownload (some gpk) (findById db fid) blob aesKey iv role uid =
      ⟨⟨200, true, "Key exchange successful. File encrypted with RSA-exchanged key."⟩,
       some (encryptWithAES blob aesKey iv),
       some (encryptWithPublicKey aesKey gpk),
       some file.iv, some file.authTag, some file.sha256Hash,
       some { file with downloadCount := file.downloadCount + 1 },
       [("KEY_EXCHANGE_DOWNLOAD", "SUCCESS")]⟩ := by
  constructor
  · have hfind' :
        (preFindFilter db).find? (fun f => f.id = fid) = some file := hfind
    exact preFindFilter_not_deleted (List.mem_of_find?_eq_some hfind')
  · rw [hfind]
    simp [keyExchangeDownload, hkx, encryptForKeyExchange]

/-- Witness for C3: a guest who does not own a vault file still gets the
key-exchange payload. -/
theorem keyExchangeDownload_no_acl_no_digest_check_witness :
    sampleVaultFile.isDeleted = false ∧
    keyExchangeDownload (some "guest-pem") (findById [sampleVaultFile] 1)
        [9] [1] [2] "guest" 2 =
      ⟨⟨200, true, "Key exchange successful. File encrypted with RSA-exchanged key."⟩,
       some (encryptWithAES [9] [1] [2]),
       some (encryptWithPublicKey [1] "guest-pem"),
       some sampleVaultFile.iv, some sampleVaultFile.authTag,
       some sampleVaultFile.sha256Hash,
       some { sampleVaultFile with downloadCount := sampleVaultFile.downloadCount + 1 },
       [("KEY_EXCHANGE_DOWNLOAD", "SUCCESS")]⟩ :=
  keyExchangeDownload_no_acl_no_digest_check [sampleVaultFile] 1 sampleVaultFile
    "guest-pem" [9] [1] [2] "guest" 2 (by decide) (by decide)

/-- C4: on the password download path the two AEAD failure layers map to
distinct outcomes: a master key derived from a wrong password fails the
tag check on the wrapped per-file key and yields the 401 "Invalid
decryption password." response with no audit event (in particular no
INTEGRITY_CHECK_FAILED), while a tampered file ciphertext under the
correct password fails the tag check on the content and yields the 500
integrity-failure response audited as INTEGRITY_CHECK_FAILED. -/
theorem download_wrong_password_vs_tampered_ciphertext
    (name mime : String) (P pw pw' fileKey fileSalt ivF ivK blob' : List Nat)
    (ownerId newId uid : Nat) (role : String)
    (hk : fileKey.length = 32)
    (hpw : pw' ≠ pw)
    (hblob : blob' ≠ uploadBlob P fileKey ivF) :
    downloadFile
        (some (uploadRecord name mime P ownerId "public" pw fileKey fileSalt ivF ivK newId))
        role uid (some pw') none (uploadBlob P fileKey ivF) =
      ⟨⟨401, false, "Invalid decryption password."⟩, [],
       some (uploadRecord name mime P ownerId "public" pw fileKey fileSalt ivF ivK newId),
       none⟩ ∧
    downloadFile
        (some (uploadRecord name mime P ownerId "public" pw fileKey fileSalt ivF ivK newId))
        role uid (some pw) none blob' =
      ⟨⟨500, false, "File integrity check failed. File may be corrupted."⟩,
       [("INTEGRITY_CHECK_FAILED", "FAILED")],
       some (uploadRecord name mime P ownerId "public" pw fileKey fileSalt ivF ivK newId),
       none⟩ := by
  have hmk : deriveKey pw' fileSalt ≠ deriveKey pw fileSalt := fun h =>
    hpw (deriveKey_inj h).1
  constructor
  · have hwrong := decryptKey_wrap_wrong_key fileKey pw fileSalt ivK
      (deriveKey pw' fileSalt) hmk (deriveKey_length pw' fileSalt)
    simp only [wrapKey] at hwrong
    simp [downloadFile, uploadRecord, saltResolve, wrapKey, uploadBlob, hwrong]
  · have hok := decryptKey_wrap_ok fileKey pw fileSalt ivK
    simp only [wrapKey] at hok
    have htamper := decryptFile_gcm_tampered P fileKey ivF blob' hk
      (by simpa [uploadBlob] using hblob)
    simp [downloadFile, uploadRecord, saltResolve, wrapKey, uploadBlob, hok, htamper]

/-- Witness for C4 at a concrete upload and a one-byte blob change. -/
theorem download_wrong_password_vs_tampered_ciphertext_witness :
    downloadFile
        (some (uploadRecord "a" "t" [7] 7 "public" [1] (List.replicate 32 0) [3] [4] [5] 1))
        "guest" 2 (some [2]) none (uploadBlob [7] (List.replicate 32 0) [4]) =
      ⟨⟨401, false, "Invalid decryption password."⟩, [],
       some (uploadRecord "a" "t" [7] 7 "public" [1] (List.replicate 32 0) [3] [4] [5] 1),
       none⟩ ∧
    downloadFile
        (some (uploadRecord "a" "t" [7] 7 "public" [1] (List.replicate 32 0) [3] [4] [5] 1))
        "guest" 2 (some [1]) none [] =
      ⟨⟨500, false, "File integrity check failed. File may be corrupted."⟩,
       [("INTEGRITY_CHECK_FAILED", "FAILED")],
       some (uploadRecord "a" "t" [7] 7 "public" [1] (List.replicate 32 0) [3] [4] [5] 1),
       none⟩ :=
  download_wrong_password_vs_tampered_ciphertext "a" "t" [7] [1] [2]
    (List.replicate 32 0) [3] [4] [5] [] 7 1 2 "guest"
    (by decide) (by decide) (by decide)

/-- C6: salt resolution on the password download path is a two-variant
case.  (1) For any record with a non-null per-file salt the outcome is
independent of the owner account's salt; (2) a record uploaded with a
per-file salt decrypts successfully given only the upload password, with
any owner-salt lookup result; (3) a legacy record (null per-file salt)
wrapped under the owner salt decrypts with that owner salt, (4) fails the
password check under any other owner salt, and (5) with no owner salt
either, the download fails closed with the metadata error, attempting no
decryption (no audit event, no plaintext, record unchanged). -/
theorem download_salt_resolution
    (name mime : String) (P pw fileKey fileSalt osalt ivF ivK : List Nat)
    (ownerId newId uid : Nat) (role : String)
    (hk : fileKey.length = 32) :
    (∀ (rec : FileRecord) (s : List Nat), rec.fileSalt = some s →
      ∀ (pwq : Option (List Nat)) (os os' : Option (List Nat)) (blob : List Nat),
        downloadFile (some rec) role uid pwq os blob =
        downloadFile (some rec) role uid pwq os' blob) ∧
    (∀ os : Option (List Nat),
      downloadFile
          (some (uploadRecord name mime P ownerId "public" pw fileKey fileSalt ivF ivK newId))
          role uid (some pw) os (uploadBlob P fileKey ivF) =
        ⟨⟨200, true, ""⟩,
         [("INTEGRITY_CHECK_PASSED", "SUCCESS"), ("FILE_DOWNLOAD", "SUCCESS")],
         some { uploadRecord name mime P ownerId "public" pw fileKey fileSalt ivF ivK newId with
                downloadCount := 1 },
         some P⟩) ∧
    (downloadFile
        (some (legacyRecord name mime P ownerId "public" pw fileKey osalt ivF ivK newId))
        role uid (some pw) (some osalt) (uploadBlob P fileKey ivF) =
      ⟨⟨200, true, ""⟩,
       [("INTEGRITY_CHECK_PASSED", "SUCCESS"), ("FILE_DOWNLOAD", "SUCCESS")],
       some { legacyRecord name mime P ownerId "public" pw fileKey osalt ivF ivK newId with
              downloadCount := 1 },
       some P⟩) ∧
    (∀ os2 : List Nat, os2 ≠ osalt →
      downloadFile
          (some (legacyRecord name mime P ownerId "public" pw fileKey osalt ivF ivK newId))
          role uid (some pw) (some os2) (uploadBlob P fileKey ivF) =
        ⟨⟨401, false, "Invalid decryption password."⟩, [],
         some (legacyRecord name mime P ownerId "public" pw fileKey osalt ivF ivK newId),
         none⟩) ∧
    (∀ blob : List Nat,
      downloadFile
          (some (legacyRecord name mime P ownerId "public" pw fileKey osalt ivF ivK newId))
          role uid (some pw) none blob =
        ⟨⟨500, false, "File encryption metadata missing."⟩, [],
         some (legacyRecord name mime P ownerId "public" pw fileKey osalt ivF ivK newId),
         none⟩) := by
  have hok := decryptKey_wrap_ok fileKey pw fileSalt ivK
  simp only [wrapKey] at hok
  have hokLegacy := decryptKey_wrap_ok fileKey pw osalt ivK
  simp only [wrapKey] at hokLegacy
  have hfile := decryptFile_gcm_ok P fileKey ivF hk
  refine ⟨?_, ?_, ?_, ?_, ?_⟩
  · intro rec s hs pwq os os' blob
    simp [downloadFile, saltResolve, hs]
  · intro os
    simp [downloadFile, uploadRecord, saltResolve, wrapKey, uploadBlob, hok,
      hfile, verifyIntegrity]
  · simp [downloadFile, legacyRecord, uploadRecord, saltResolve, wrapKey,
      uploadBlob, hokLegacy, hfile, verifyIntegrity]
  · intro os2 hos
    have hmk : deriveKey pw os2 ≠ deriveKey pw osalt := fun h =>
      hos (deriveKey_inj h).2
    have hwrong := decryptKey_wrap_wrong_key fileKey pw osalt ivK
      (deriveKey pw os2) hmk (deriveKey_length pw os2)
    simp only [wrapKey] at hwrong
    simp [downloadFile, legacyRecord, uploadRecord, saltResolve, wrapKey,
      uploadBlob, hwrong]
  · intro blob
    simp [downloadFile, legacyRecord, uploadRecord, saltResolve]

/-- Witness for C6 at a concrete upload. -/
theorem download_salt_resolution_witness :
    (∀ (rec : FileRecord) (s : List Nat), rec.fileSalt = some s →
      ∀ (pwq : Option (List Nat)) (os os' : Option (List Nat)) (blob : List Nat),
        downloadFile (some rec) "guest" 2 pwq os blob =
        downloadFile (some rec) "guest" 2 pwq os' blob) ∧
    (∀ os : Option (List Nat),
      downloadFile
          (some (uploadRecord "a" "t" [7] 7 "public" [1] (List.replicate 32 0) [3] [4] [5] 1))
          "guest" 2 (some [1]) os (uploadBlob [7] (List.replicate 32 0) [4]) =
        ⟨⟨200, true, ""⟩,
         [("INTEGRITY_CHECK_PASSED", "SUCCESS"), ("FILE_DOWNLOAD", "SUCCESS")],
         some { uploadRecord "a" "t" [7] 7 "public" [1] (List.replicate 32 0) [3] [4] [5] 1 with
                downloadCount := 1 },
         some [7]⟩) ∧
    (downloadFile
        (some (legacyRecord "a" "t" [7] 7 "public" [1] (List.replicate 32 0) [6] [4] [5] 1))
        "guest" 2 (some [1]) (some [6]) (uploadBlob [7] (List.replicate 32 0) [4]) =
      ⟨⟨200, true, ""⟩,
       [("INTEGRITY_CHECK_PASSED", "SUCCESS"), ("FILE_DOWNLOAD", "SUCCESS")],
       some { legacyRecord "a" "t" [7] 7 "public" [1] (List.replicate 32 0) [6] [4] [5] 1 with
              downloadCount := 1 },
       some [7]⟩) ∧
    (∀ os2 : List Nat, os2 ≠ [6] →
      downloadFile
          (some (legacyRecord "a" "t" [7] 7 "public" [1] (List.replicate 32 0) [6] [4] [5] 1))
          "guest" 2 (some [1]) (some os2) (uploadBlob [7] (List.replicate 32 0) [4]) =
        ⟨⟨401, false, "Invalid decryption password."⟩, [],
         some (legacyRecord "a" "t" [7] 7 "public" [1] (List.replicate 32 0) [6] [4] [5] 1),
         none⟩) ∧
    (∀ blob : List Nat,
      downloadFile
          (some (legacyRecord "a" "t" [7] 7 "public" [1] (List.replicate 32 0) [6] [4] [5] 1))
          "guest" 2 (some [1]) none blob =
        ⟨⟨500, false, "File encryption metadata missing."⟩, [],
         some (legacyRecord "a" "t" [7] 7 "public" [1] (List.replicate 32 0) [6] [4] [5] 1),
         none⟩) :=
  download_salt_resolution "a" "t" [7] [1] (List.replicate 32 0) [3] [6] [4] [5]
    7 1 2 "guest" (by decide)

/-- C9: on the password download path the persisted record gains exactly
one download count if and only if the request succeeds (unwrap,
decryption and digest verification all pass, status 200); every failure
outcome leaves the stored record unchanged; and the 200 outcome is the
only one that returns plaintext. -/
theorem downloadCount_increment_iff_success
    (file : FileRecord) (role : String) (uid : Nat)
    (pw os : Option (List Nat)) (blob : List Nat) :
    ((downloadFile (some file) role uid pw os blob).record =
        some { file with downloadCount := file.downloadCount + 1 } ↔
      (downloadFile (some file) role uid pw os blob).resp.status = 200) ∧
    ((downloadFile (some file) role uid pw os blob).resp.status ≠ 200 →
      (downloadFile (some file) role uid pw os blob).record = some file) ∧
    ((downloadFile (some file) role uid pw os blob).resp.status = 200 →
      (downloadFile (some file) role uid pw os blob).plaintext ≠ none) := by
  have hne := file_ne_countBump file
  unfold downloadFile
  repeat' split
  all_goals simp_all

/-- Witness for C9 at a concrete record and failing request. -/
theorem downloadCount_increment_iff_success_witness :
    ((downloadFile (some sampleVaultFile) "admin" 7 none none []).record =
        some { sampleVaultFile with downloadCount := sampleVaultFile.downloadCount + 1 } ↔
      (downloadFile (some sampleVaultFile) "admin" 7 none none []).resp.status = 200) ∧
    ((downloadFile (some sampleVaultFile) "admin" 7 none none []).resp.status ≠ 200 →
      (downloadFile (some sampleVaultFile) "admin" 7 none none []).record =
        some sampleVaultFile) ∧
    ((downloadFile (some sampleVaultFile) "admin" 7 none none []).resp.status = 200 →
      (downloadFile (some sampleVaultFile) "admin" 7 none none []).plaintext ≠ none) :=
  downloadCount_increment_iff_success sampleVaultFile "admin" 7 none none []

/-- C10: a successful delete makes the file invisible to every later
find-family query: the id lookup behind download, share and key-exchange
returns not-found, the shared-token lookup never yields the deleted id,
and no find-family query ever returns a soft-deleted record. -/
theorem soft_delete_invisible
    (db : List FileRecord) (fid : Nat) (role : String) (uid : Nat) (now : Nat)
    (h : (deleteFile db fid role uid now).1.status = 200) :
    findById (deleteFile db fid role uid now).2 fid = none ∧
    (∀ (q : FileRecord → Bool) (f : FileRecord),
      f ∈ findByQuery (deleteFile db fid role uid now).2 q → f.isDeleted = false) ∧
    (∀ (tok t : Nat) (f : FileRecord),
      findByShareToken (deleteFile db fid role uid now).2 tok t = some f →
        f.id ≠ fid) ∧
    (∀ (pw os : Option (List Nat)) (blob : List Nat),
      downloadFile (findById (deleteFile db fid role uid now).2 fid) role uid pw os blob =
        ⟨⟨404, false, "File not found."⟩, [], none, none⟩) ∧
    (∀ (gpk : String) (blob aesKey iv : List Nat),
      keyExchangeDownload (some gpk) (findById (deleteFile db fid role uid now).2 fid)
          blob aesKey iv role uid =
        ⟨⟨404, false, "File not found."⟩, none, none, none, none, none, none, []⟩) ∧
    (∀ tok exp : Nat,
      shareFile (deleteFile db fid role uid now).2 fid role uid tok exp =
        (⟨404, false, "File not found."⟩, (deleteFile db fid role uid now).2)) := by
  have hinv : ∃ file : FileRecord, findById db fid = some file ∧ file.id = fid ∧
      (deleteFile db fid role uid now).2 =
        updateFile db { file with isDeleted := true, deletedAt := some now } := by
    cases hf : findById db fid with
    | none =>
        exfalso
        unfold deleteFile at h
        rw [hf] at h
        simp at h
    | some file =>
        by_cases hauth : role ≠ "admin" ∧ file.owner ≠ uid
        · exfalso
          simp only [deleteFile, hf, if_pos hauth] at h
          simp at h
        · refine ⟨file, rfl, ?_, ?_⟩
          · have hf' : (preFindFilter db).find? (fun f => f.id = fid) = some file := hf
            have := List.find?_some hf'
            simpa using this
          · simp only [deleteFile, hf, if_neg hauth]
  obtain ⟨file, hfind, hid, hdb⟩ := hinv
  have hAway : ∀ g ∈ preFindFilter (deleteFile db fid role uid now).2, g.id ≠ fid := by
    intro g hg
    have hgdel : g.isDeleted = false := preFindFilter_not_deleted hg
    have hgmem : g ∈ (deleteFile db fid role uid now).2 :=
      (List.mem_filter.mp hg).1
    rw [hdb] at hgmem
    obtain ⟨g0, _, hmap⟩ := List.mem_map.mp hgmem
    by_cases hcase : g0.id = ({ file with isDeleted := true, deletedAt := some now } : FileRecord).id
    · rw [if_pos hcase] at hmap
      rw [← hmap] at hgdel
      simp at hgdel
    · rw [if_neg hcase] at hmap
      rw [← hmap]
      intro hgid
      exact hcase (by simpa [hid] using hgid)
  have hnone : findById (deleteFile db fid role uid now).2 fid = none := by
    have : ∀ g ∈ preFindFilter (deleteFile db fid role uid now).2,
        ¬ ((fun f : FileRecord => decide (f.id = fid)) g = true) := by
      intro g hg
      simpa using hAway g hg
    exact List.find?_eq_none.mpr this
  refine ⟨hnone, ?_, ?_, ?_, ?_, ?_⟩
  · intro q f hf
    exact preFindFilter_not_deleted (List.mem_filter.mp hf).1
  · intro tok t f hf
    exact hAway f (List.mem_of_find?_eq_some hf)
  · intro pw os blob
    rw [hnone]
    rfl
  · intro gpk blob aesKey iv
    rw [hnone]
    rfl
  · intro tok exp
    simp [shareFile, hnone]

/-- Witness for C10: the owner deletes their file and it vanishes from
all lookups. -/
theorem soft_delete_invisible_witness :
    findById (deleteFile [sampleVaultFile] 1 "premium" 7 100).2 1 = none ∧
    (∀ (q : FileRecord → Bool) (f : FileRecord),
      f ∈ findByQuery (deleteFile [sampleVaultFile] 1 "premium" 7 100).2 q →
        f.isDeleted = false) ∧
    (∀ (tok t : Nat) (f : FileRecord),
      findByShareToken (deleteFile [sampleVaultFile] 1 "premium" 7 100).2 tok t = some f →
        f.id ≠ 1) ∧
    (∀ (pw os : Option (List Nat)) (blob : List Nat),
      downloadFile (findById (deleteFile [sampleVaultFile] 1 "premium" 7 100).2 1)
          "premium" 7 pw os blob =
        ⟨⟨404, false, "File not found."⟩, [], none, none⟩) ∧
    (∀ (gpk : String) (blob aesKey iv : List Nat),
      keyExchangeDownload (some gpk)
          (findById (deleteFile [sampleVaultFile] 1 "premium" 7 100).2 1)
          blob aesKey iv "premium" 7 =
        ⟨⟨404, false, "File not found."⟩, none, none, none, none, none, none, []⟩) ∧
    (∀ tok exp : Nat,
      shareFile (deleteFile [sampleVaultFile] 1 "premium" 7 100).2 1 "premium" 7 tok exp =
        (⟨404, false, "File not found."⟩, (deleteFile [sampleVaultFile] 1 "premium" 7 100).2)) :=
  soft_delete_invisible [sampleVaultFile] 1 "premium" 7 100 (by decide)

end FileVault
